import Mathlib

/-!
Verification of the color extraction and palette synthesis engine of the
design-scout-agent repository (`src/analyzers/color-extractor.ts`).

The TypeScript module is shallowly embedded below.  JavaScript numbers are
modelled by exact arithmetic: pixel samples are `ℕ`, quantized channel values
and HSL components are `ℤ`, and all fractional intermediate values
(frequencies, averages, the HSL computation) are `ℚ`.  `Math.floor` is
`Int.floor` and `Math.round x` is `⌊x + 1/2⌋` (JavaScript rounds half toward
positive infinity).  JavaScript `Map` preserves insertion order, so histograms
and cluster maps are association lists updated in place.  `Array.prototype.sort`
is stable in modern engines and is modelled by a stable insertion sort.
Object identity (`===`) between the color records flowing through the module
is modelled by structural equality; the pipeline never materialises two
distinct records with identical contents, so the two notions agree on every
input the module builds.
-/

namespace DesignScout

/-- HSL triple as produced by `rgbToHsl`: all three components are passed
through `Math.round`, hence integers. -/
structure HSL where
  h : ℤ
  s : ℤ
  l : ℤ
deriving DecidableEq

/-- RGB triple of (quantized) channel values. -/
structure RGB where
  r : ℤ
  g : ℤ
  b : ℤ
deriving DecidableEq

/-- `ExtractedColor` record of the source module. -/
structure ExtractedColor where
  hex : String
  rgb : RGB
  hsl : HSL
  frequency : ℚ
  name : Option String
deriving DecidableEq

/-- The `colorHarmony` union type of `ColorExtractionResult`. -/
inductive ColorHarmony where
  | complementary
  | analogous
  | triadic
  | monochromatic
  | custom
deriving DecidableEq

/-- The `brightness` union type of `ColorExtractionResult`. -/
inductive Brightness where
  | light
  | dark
  | mixed
deriving DecidableEq

/-- The `saturation` union type of `ColorExtractionResult`. -/
inductive Saturation where
  | vibrant
  | muted
  | mixed
deriving DecidableEq

/-- `ColorPalette` from `src/types` (all fields are hex strings). -/
structure ColorPalette where
  primary : String
  secondary : String
  accent : String
  background : String
  surface : String
  text : String
  textSecondary : String
  success : String
  warning : String
  error : String
  additionalColors : List String
deriving DecidableEq

/-- `ColorExtractionResult` of the source module. -/
structure ColorExtractionResult where
  dominantColors : List ExtractedColor
  palette : ColorPalette
  colorHarmony : ColorHarmony
  brightness : Brightness
  saturation : Saturation
deriving DecidableEq

/-- JavaScript `Math.round`: rounds half toward positive infinity. -/
def jsRound (x : ℚ) : ℤ := ⌊x + 1/2⌋

/-- `x.toString(16).padStart(2, '0')` for a byte value: lowercase hex digits,
left-padded to two characters. -/
def byteToHex (n : ℕ) : String :=
  let s := String.mk (Nat.toDigits 16 n)
  if s.length ≥ 2 then s else if s.length = 1 then "0" ++ s else "00"

/-- `rgbToHex` of the source: `'#' + [r,g,b].map(hex2).join('').toUpperCase()`.
Channel values are nonnegative at every call site, so `Int.toNat` is exact. -/
def rgbToHex (r g b : ℤ) : String :=
  "#" ++ String.mk ((byteToHex r.toNat ++ byteToHex g.toNat ++ byteToHex b.toNat).data.map Char.toUpper)

/-- `rgbToHsl` of the source.  Channels are normalised to `[0,1]`, h/s/l are
computed rationally, and each component is `Math.round`ed on return.  The
`switch (max)` statement tests `max === r`, then `max === g`, then falls
through to the `b` case, which the nested conditional mirrors. -/
def rgbToHsl (r g b : ℤ) : HSL :=
  let rq : ℚ := (r : ℚ) / 255
  let gq : ℚ := (g : ℚ) / 255
  let bq : ℚ := (b : ℚ) / 255
  let mx := max rq (max gq bq)
  let mn := min rq (min gq bq)
  let l := (mx + mn) / 2
  if mx = mn then
    ⟨jsRound 0, jsRound 0, jsRound (l * 100)⟩
  else
    let d := mx - mn
    let s := if l > 1/2 then d / (2 - mx - mn) else d / (mx + mn)
    let h :=
      if mx = rq then ((gq - bq) / d + (if gq < bq then 6 else 0)) * 60
      else if mx = gq then ((bq - rq) / d + 2) * 60
      else ((rq - gq) / d + 4) * 60
    ⟨jsRound h, jsRound (s * 100), jsRound (l * 100)⟩

/-- `getColorName` of the source: coarse hue/lightness label. -/
def getColorName (hsl : HSL) : String :=
  if hsl.s < 10 then
    if hsl.l < 20 then "black"
    else if hsl.l > 80 then "white"
    else "gray"
  else
    let hue := hsl.h
    if hue < 15 ∨ hue ≥ 345 then "red"
    else if hue < 45 then "orange"
    else if hue < 75 then "yellow"
    else if hue < 150 then "green"
    else if hue < 210 then "cyan"
    else if hue < 270 then "blue"
    else if hue < 315 then "purple"
    else "pink"

/-- The pixels read by `quantizeColors`' loop `for (i = 0; i < data.length;
i += channels)`: samples `data[i]`, `data[i+1]`, `data[i+2]` for each stride.
Callers always supply `channels ∈ {3, 4}` and a complete buffer; for a ragged
tail the source would read `undefined` (NaN), which we model as sample 0, and
for `channels = 0` the source loop would never terminate, which we model by
consuming at least one sample per step (`max channels 1`). -/
def pixelsOf (channels : ℕ) : List ℕ → List (ℕ × ℕ × ℕ)
  | [] => []
  | r :: rest =>
    (r, rest.getD 0 0, rest.getD 1 0) :: pixelsOf channels ((r :: rest).drop (max channels 1))
termination_by data => data.length
decreasing_by
  simp only [List.length_drop, List.length_cons]
  omega

/-- One channel of the quantizer: `Math.floor(value / bucketSize) * bucketSize`. -/
def quantizeChannel (bucketSize : ℤ) (v : ℕ) : ℤ :=
  ⌊(v : ℚ) / (bucketSize : ℚ)⌋ * bucketSize

/-- The quantized RGB key of a pixel. -/
def quantKey (bucketSize : ℤ) (p : ℕ × ℕ × ℕ) : ℤ × ℤ × ℤ :=
  (quantizeChannel bucketSize p.1, quantizeChannel bucketSize p.2.1, quantizeChannel bucketSize p.2.2)

/-- `const brightness = (r + g + b) / 3` of the quantizer loop.  Note that the
source computes this from the already-quantized channel values. -/
def pixelBrightness (bucketSize : ℤ) (p : ℕ × ℕ × ℕ) : ℚ :=
  let k := quantKey bucketSize p
  ((k.1 + k.2.1 + k.2.2 : ℤ) : ℚ) / 3

/-- `colorMap.set(key, (colorMap.get(key) || 0) + 1)`: bump the count of `key`
in an insertion-ordered association list. -/
def bump (key : ℤ × ℤ × ℤ) : List ((ℤ × ℤ × ℤ) × ℕ) → List ((ℤ × ℤ × ℤ) × ℕ)
  | [] => [(key, 1)]
  | (k, n) :: rest => if k = key then (k, n + 1) :: rest else (k, n) :: bump key rest

/-- Body of the quantizer loop: skip the pixel when the quantized brightness is
below 10 or above 245, otherwise count its quantized key. -/
def quantizeStep (bucketSize : ℤ) (colorMap : List ((ℤ × ℤ × ℤ) × ℕ)) (p : ℕ × ℕ × ℕ) :
    List ((ℤ × ℤ × ℤ) × ℕ) :=
  if pixelBrightness bucketSize p < 10 ∨ pixelBrightness bucketSize p > 245 then colorMap
  else bump (quantKey bucketSize p) colorMap

/-- `quantizeColors` of the source: histogram from quantized RGB keys to pixel
counts, in first-encounter order. -/
def quantizeColors (bucketSize : ℤ) (data : List ℕ) (channels : ℕ) :
    List ((ℤ × ℤ × ℤ) × ℕ) :=
  (pixelsOf channels data).foldl (quantizeStep bucketSize) []

/-- `Array.from(colorMap.values()).reduce((a, b) => a + b, 0)`: total count of
retained pixels. -/
def totalPixels (colorMap : List ((ℤ × ℤ × ℤ) × ℕ)) : ℕ :=
  colorMap.foldl (fun a e => a + e.2) 0

/-- Whether the quantizer keeps a pixel: the complement of its skip test
(which reads the quantized channel values, not the raw ones). -/
def retainedPixel (bucketSize : ℤ) (p : ℕ × ℕ × ℕ) : Bool :=
  !(decide (pixelBrightness bucketSize p < 10 ∨ pixelBrightness bucketSize p > 245))

/-- Conversion of one histogram entry to an `ExtractedColor`
(the `.map` callback inside `getDominantColors`). -/
def toExtractedColor (total : ℕ) (entry : (ℤ × ℤ × ℤ) × ℕ) : ExtractedColor :=
  let r := entry.1.1
  let g := entry.1.2.1
  let b := entry.1.2.2
  { hex := rgbToHex r g b
    rgb := ⟨r, g, b⟩
    hsl := rgbToHsl r g b
    frequency := (entry.2 : ℚ) / (total : ℚ)
    name := some (getColorName (rgbToHsl r g b)) }

/-- Descending-frequency order used by `.sort((a, b) => b.frequency - a.frequency)`. -/
def freqDesc (a b : ExtractedColor) : Prop := b.frequency ≤ a.frequency

instance : DecidableRel freqDesc := fun a b =>
  inferInstanceAs (Decidable (b.frequency ≤ a.frequency))

instance : IsTotal ExtractedColor freqDesc :=
  ⟨fun a b => le_total b.frequency a.frequency⟩

instance : IsTrans ExtractedColor freqDesc :=
  ⟨fun _ _ _ hab hbc => le_trans hbc hab⟩

/-- Descending-saturation order used by `.sort((a, b) => b.hsl.s - a.hsl.s)`. -/
def satDesc (a b : ExtractedColor) : Prop := b.hsl.s ≤ a.hsl.s

instance : DecidableRel satDesc := fun a b =>
  inferInstanceAs (Decidable (b.hsl.s ≤ a.hsl.s))

instance : IsTotal ExtractedColor satDesc :=
  ⟨fun a b => le_total b.hsl.s a.hsl.s⟩

instance : IsTrans ExtractedColor satDesc :=
  ⟨fun _ _ _ hab hbc => le_trans hbc hab⟩

/-- The frequency-sorted conversion of the whole histogram (the part of
`getDominantColors` before `.slice(0, count)`). -/
def rankedColors (colorMap : List ((ℤ × ℤ × ℤ) × ℕ)) : List ExtractedColor :=
  List.insertionSort freqDesc (colorMap.map (toExtractedColor (totalPixels colorMap)))

/-- The acceptance test of `ensureDiversity`: circular hue distance above 30
or lightness distance above 20 from an already-accepted color. -/
def diverseFrom (c existing : ExtractedColor) : Bool :=
  let hueDiff := |c.hsl.h - existing.hsl.h|
  let adjustedDiff := min hueDiff (360 - hueDiff)
  decide (adjustedDiff > 30 ∨ |c.hsl.l - existing.hsl.l| > 20)

/-- One iteration of the greedy loop of `ensureDiversity`: accept the candidate
while fewer than `count` colors are kept and it is diverse from every kept one. -/
def greedyStep (count : ℕ) (diverse : List ExtractedColor) (c : ExtractedColor) :
    List ExtractedColor :=
  if diverse.length < count ∧ diverse.all (fun e => diverseFrom c e) then diverse ++ [c]
  else diverse

/-- The greedy phase of `ensureDiversity`: starts from `[colors[0]]` and scans
the remaining candidates in order. -/
def greedyPhase (count : ℕ) (colors : List ExtractedColor) : List ExtractedColor :=
  match colors with
  | [] => []
  | c0 :: rest => rest.foldl (greedyStep count) [c0]

/-- One iteration of the fill loop of `ensureDiversity`: stop once `count`
colors are kept, and append any not-yet-included color (insertion order). -/
def fillStep (count : ℕ) (diverse : List ExtractedColor) (c : ExtractedColor) :
    List ExtractedColor :=
  if count ≤ diverse.length then diverse
  else if c ∈ diverse then diverse
  else diverse ++ [c]

/-- The fill phase of `ensureDiversity` (`// Fill remaining slots if needed`). -/
def fillPhase (count : ℕ) (colors diverse : List ExtractedColor) : List ExtractedColor :=
  colors.foldl (fillStep count) diverse

/-- `ensureDiversity` of the source. -/
def ensureDiversity (colors : List ExtractedColor) (count : ℕ) : List ExtractedColor :=
  if colors.length ≤ 1 then colors
  else fillPhase count colors (greedyPhase count colors)

/-- `getDominantColors` of the source: convert, sort by descending frequency,
keep the top `count` (`.slice(0, count)`), then apply the diversity filter. -/
def getDominantColors (colorMap : List ((ℤ × ℤ × ℤ) × ℕ)) (count : ℕ) : List ExtractedColor :=
  ensureDiversity ((rankedColors colorMap).take count) count

/-- The selector as the specification describes it: identical to
`getDominantColors` except that the working pool kept for the diversity filter
is the top `count * 2` candidates rather than the top `count`.  Stated only to
be compared against the source's `getDominantColors`. -/
def getDominantColorsSpecPool (colorMap : List ((ℤ × ℤ × ℤ) × ℕ)) (count : ℕ) :
    List ExtractedColor :=
  ensureDiversity ((rankedColors colorMap).take (count * 2)) count

/-- `detectColorHarmony` of the source. -/
def detectColorHarmony (colors : List ExtractedColor) : ColorHarmony :=
  if colors.length < 2 then ColorHarmony.monochromatic
  else
    match colors with
    | [] => ColorHarmony.monochromatic
    | c0 :: _ =>
      let hues := (colors.take 5).map (fun c => c.hsl.h)
      let hueDiffs := (hues.drop 1).map (fun hh =>
        let d := |hh - c0.hsl.h|
        min d (360 - d))
      let avgDiff : ℚ := ((hueDiffs.foldl (· + ·) 0 : ℤ) : ℚ) / (hueDiffs.length : ℚ)
      if avgDiff < 30 then ColorHarmony.monochromatic
      else if 150 ≤ avgDiff ∧ avgDiff ≤ 210 then ColorHarmony.complementary
      else if 30 ≤ avgDiff ∧ avgDiff ≤ 60 then ColorHarmony.analogous
      else if hueDiffs.any (fun d => decide (110 ≤ d ∧ d ≤ 130)) then ColorHarmony.triadic
      else ColorHarmony.custom

/-- Average lightness `colors.reduce((sum, c) => sum + c.hsl.l, 0) / colors.length`,
computed identically in `generatePalette` and `detectBrightness`. -/
def avgLightness (colors : List ExtractedColor) : ℚ :=
  (colors.foldl (fun sum c => sum + (c.hsl.l : ℚ)) 0) / (colors.length : ℚ)

/-- Average saturation used by `detectSaturation`. -/
def avgSaturation (colors : List ExtractedColor) : ℚ :=
  (colors.foldl (fun sum c => sum + (c.hsl.s : ℚ)) 0) / (colors.length : ℚ)

/-- `detectBrightness` of the source.  On an empty list the source divides by
zero, producing NaN, and both `NaN < 35` and `NaN > 65` are false, so the
result is `mixed`; that case is modelled explicitly. -/
def detectBrightness (colors : List ExtractedColor) : Brightness :=
  if colors.length = 0 then Brightness.mixed
  else
    if avgLightness colors < 35 then Brightness.dark
    else if avgLightness colors > 65 then Brightness.light
    else Brightness.mixed

/-- `detectSaturation` of the source, with the same NaN-on-empty modelling. -/
def detectSaturation (colors : List ExtractedColor) : Saturation :=
  if colors.length = 0 then Saturation.mixed
  else
    if avgSaturation colors > 60 then Saturation.vibrant
    else if avgSaturation colors < 30 then Saturation.muted
    else Saturation.mixed

/-- `getDefaultPalette` of the source. -/
def getDefaultPalette : ColorPalette :=
  { primary := "#6366F1"
    secondary := "#8B5CF6"
    accent := "#14B8A6"
    background := "#FFFFFF"
    surface := "#F8FAFC"
    text := "#0F172A"
    textSecondary := "#64748B"
    success := "#22C55E"
    warning := "#F59E0B"
    error := "#EF4444"
    additionalColors := [] }

/-- `getDefaultResult` of the source. -/
def getDefaultResult : ColorExtractionResult :=
  { dominantColors := []
    palette := getDefaultPalette
    colorHarmony := ColorHarmony.custom
    brightness := Brightness.mixed
    saturation := Saturation.mixed }

/-- The scanning loop of `findSecondary`: first color other than `primary`
whose adjusted hue distance lies in `[30,60]` or `[150,210]`. -/
def findSecondaryLoop (primary : ExtractedColor) : List ExtractedColor → Option ExtractedColor
  | [] => none
  | c :: rest =>
    if c = primary then findSecondaryLoop primary rest
    else
      let hueDiff := |c.hsl.h - primary.hsl.h|
      let adjustedDiff := min hueDiff (360 - hueDiff)
      if (30 ≤ adjustedDiff ∧ adjustedDiff ≤ 60) ∨ (150 ≤ adjustedDiff ∧ adjustedDiff ≤ 210) then
        some c
      else findSecondaryLoop primary rest

/-- `findSecondary` of the source; falls back to `colors[1] || primary`. -/
def findSecondary (colors : List ExtractedColor) (primary : ExtractedColor) : ExtractedColor :=
  (findSecondaryLoop primary colors).getD (colors.getD 1 primary)

/-- The scanning loop of `findAccent`: first color distinct from primary and
secondary with saturation above 50. -/
def findAccentLoop (primary secondary : ExtractedColor) :
    List ExtractedColor → Option ExtractedColor
  | [] => none
  | c :: rest =>
    if c = primary ∨ c = secondary then findAccentLoop primary secondary rest
    else if c.hsl.s > 50 then some c
    else findAccentLoop primary secondary rest

/-- `findAccent` of the source; falls back to `colors[2] || secondary`. -/
def findAccent (colors : List ExtractedColor) (primary secondary : ExtractedColor) :
    ExtractedColor :=
  (findAccentLoop primary secondary colors).getD (colors.getD 2 secondary)

/-- `generatePalette` of the source.  `sorted[0] || colors[0]` can only take
the `sorted[0]` branch when `colors` is nonempty (objects are truthy), and the
sort of a nonempty list is nonempty, so the inner `[]` case is unreachable. -/
def generatePalette (colors : List ExtractedColor) : ColorPalette :=
  if colors.length = 0 then getDefaultPalette
  else
    match List.insertionSort satDesc colors with
    | [] => getDefaultPalette
    | primary :: _ =>
      let secondary := findSecondary colors primary
      let accent := findAccent colors primary secondary
      let isDark := avgLightness colors < 50
      { primary := primary.hex
        secondary := secondary.hex
        accent := accent.hex
        background := if isDark then "#0F172A" else "#FFFFFF"
        surface := if isDark then "#1E293B" else "#F8FAFC"
        text := if isDark then "#F1F5F9" else "#0F172A"
        textSecondary := if isDark then "#94A3B8" else "#64748B"
        success := "#22C55E"
        warning := "#F59E0B"
        error := "#EF4444"
        additionalColors := ((colors.drop 3).take 5).map (fun c => c.hex) }

/-- One cluster of `aggregateColors`' map: JS `Map` key (the first-seen hex),
representative color, accumulated frequency and fold count. -/
structure AggEntry where
  key : String
  color : ExtractedColor
  totalFreq : ℚ
  count : ℕ
deriving DecidableEq

/-- The similarity test of `aggregateColors`: adjusted hue distance below 20
and saturation distance below 20. -/
def similarCluster (existing c : ExtractedColor) : Bool :=
  let hueDiff := |c.hsl.h - existing.hsl.h|
  let adjustedDiff := min hueDiff (360 - hueDiff)
  decide (adjustedDiff < 20 ∧ |c.hsl.s - existing.hsl.s| < 20)

/-- Fold a color into the first similar cluster, if any (the inner
`for (const [key, existing] of colorMap.entries())` loop). -/
def foldIntoCluster (c : ExtractedColor) : List AggEntry → Option (List AggEntry)
  | [] => none
  | e :: rest =>
    if similarCluster e.color c then
      some ({ e with totalFreq := e.totalFreq + c.frequency, count := e.count + 1 } :: rest)
    else
      (foldIntoCluster c rest).map (fun rest' => e :: rest')

/-- `Map.set` on an insertion-ordered association list: replace in place if the
key exists, otherwise append. -/
def mapSet (k : String) (v : AggEntry) : List AggEntry → List AggEntry
  | [] => [v]
  | e :: rest => if e.key = k then v :: rest else e :: mapSet k v rest

/-- `aggregateColors` of the source: cluster similar colors in input order,
average each cluster's accumulated frequency, sort by descending frequency. -/
def aggregateColors (colors : List ExtractedColor) : List ExtractedColor :=
  let entries := colors.foldl (fun acc c =>
    match foldIntoCluster c acc with
    | some acc' => acc'
    | none => mapSet c.hex ⟨c.hex, c, c.frequency, 1⟩ acc) []
  List.insertionSort freqDesc
    (entries.map (fun e => { e.color with frequency := e.totalFreq / (e.count : ℚ) }))

/-- The aggregation phase of `extractFromMultiple` (source lines 129-143),
taking the concatenated per-source `dominantColors` lists.  Zero sources, or
sources that all failed or produced no usable signal, contribute the empty
list. -/
def extractFromMultipleAgg (allColors : List ExtractedColor) : ColorExtractionResult :=
  let aggregated := aggregateColors allColors
  let dominantColors := aggregated.take 10
  { dominantColors := dominantColors
    palette := generatePalette dominantColors
    colorHarmony := detectColorHarmony dominantColors
    brightness := detectBrightness dominantColors
    saturation := detectSaturation dominantColors }

/-- The pure part of `extractFromBuffer`/`extractFromFile` after the external
decode: quantize, select the top 10, classify and synthesize. -/
def extractFromBufferPure (bucketSize : ℤ) (data : List ℕ) (channels : ℕ) :
    ColorExtractionResult :=
  let colors := quantizeColors bucketSize data channels
  let dominantColors := getDominantColors colors 10
  { dominantColors := dominantColors
    palette := generatePalette dominantColors
    colorHarmony := detectColorHarmony dominantColors
    brightness := detectBrightness dominantColors
    saturation := detectSaturation dominantColors }

/-- The engine configuration: the one field set by the constructor. -/
structure ColorExtractor where
  colorBucketSize : ℤ
deriving DecidableEq

/-- The source constructor `constructor(colorBucketSize: number = 16)`: a plain
field assignment with no validation and no failure path. -/
def ColorExtractor.make (colorBucketSize : ℤ) : ColorExtractor :=
  { colorBucketSize := colorBucketSize }

/-- The constructor behaviour the specification claims (ConfigurationError:
fail fast on a non-positive bucket size), stated only to be compared against
the source's unchecked `ColorExtractor.make`. -/
def ColorExtractor.makeSpec (colorBucketSize : ℤ) : Option ColorExtractor :=
  if colorBucketSize ≤ 0 then none else some (ColorExtractor.make colorBucketSize)

/-! Concrete inputs used to exercise the pipeline. -/

/-- A 3-channel buffer of `n` identical pixels. -/
def solidBuffer (n r g b : ℕ) : List ℕ := (List.replicate n [r, g, b]).flatten

/-- The decoded 100×100 all-`#0000FF` image of Scenario A. -/
def blueBuffer : List ℕ := solidBuffer 10000 0 0 255

/-- A histogram with three buckets: a dominant red, a close dark red, and a
blue, totalling 10 retained pixels. -/
def hist3 : List ((ℤ × ℤ × ℤ) × ℕ) := [((240, 0, 0), 5), ((224, 0, 0), 3), ((0, 0, 240), 2)]

/-- A histogram with two well-separated buckets totalling 4 retained pixels. -/
def hist2 : List ((ℤ × ℤ × ℤ) × ℕ) := [((240, 0, 0), 3), ((0, 0, 240), 1)]

/-- The `ExtractedColor` the selector builds for bucket `(240,0,0)` of `hist3`. -/
def ecRed : ExtractedColor := ⟨"#F00000", ⟨240, 0, 0⟩, ⟨0, 100, 47⟩, 1/2, some "red"⟩

/-- The `ExtractedColor` the selector builds for bucket `(224,0,0)` of `hist3`. -/
def ecDarkRed : ExtractedColor := ⟨"#E00000", ⟨224, 0, 0⟩, ⟨0, 100, 44⟩, 3/10, some "red"⟩

/-- The `ExtractedColor` the selector builds for bucket `(0,0,240)` of `hist3`. -/
def ecBlue2 : ExtractedColor := ⟨"#0000F0", ⟨0, 0, 240⟩, ⟨240, 100, 47⟩, 1/5, some "blue"⟩

/-- The `ExtractedColor` the selector builds for bucket `(240,0,0)` of `hist2`. -/
def ecRed34 : ExtractedColor := ⟨"#F00000", ⟨240, 0, 0⟩, ⟨0, 100, 47⟩, 3/4, some "red"⟩

/-- The `ExtractedColor` the selector builds for bucket `(0,0,240)` of `hist2`. -/
def ecBlue14 : ExtractedColor := ⟨"#0000F0", ⟨0, 0, 240⟩, ⟨240, 100, 47⟩, 1/4, some "blue"⟩

/-- The single dominant color extracted from `blueBuffer`. -/
def ecBlueSolid : ExtractedColor := ⟨"#0000F0", ⟨0, 0, 240⟩, ⟨240, 100, 47⟩, 1, some "blue"⟩

/-- A desaturated near-white color at lightness 94 (quantized `(240,240,240)`). -/
def ecGray240 : ExtractedColor := ⟨"#F0F0F0", ⟨240, 240, 240⟩, ⟨0, 0, 94⟩, 4/5, some "white"⟩

/-- A light-themed dominant set: saturated dark blue plus near-white, with
average lightness 70.5. -/
def cs5 : List ExtractedColor := [ecBlue2, ecGray240]

/-- A pool on which the greedy diversity phase alone fills the requested
count, so the frequency fill is unused. -/
def colors6 : List ExtractedColor := [ecRed, ecBlue2]

/-! Quantizer lemmas. -/

/-- Unfolding lemma: a 3-channel stride consumes exactly one pixel. -/
theorem pixelsOf_cons3 (r g b : ℕ) (rest : List ℕ) :
    pixelsOf 3 (r :: g :: b :: rest) = (r, g, b) :: pixelsOf 3 rest := by
  rw [pixelsOf]
  simp

/-- `pixelsOf` of a solid buffer is the repeated pixel. -/
theorem pixelsOf_solid (r g b : ℕ) : ∀ n,
    pixelsOf 3 (solidBuffer n r g b) = List.replicate n (r, g, b) := by
  intro n
  induction n with
  | zero => simp [solidBuffer, pixelsOf]
  | succ n ih =>
    have : solidBuffer (n + 1) r g b = r :: g :: b :: solidBuffer n r g b := by
      simp [solidBuffer, List.replicate_succ]
    rw [this, pixelsOf_cons3, ih, List.replicate_succ]

/-- On a retained pixel the quantizer step counts the quantized key. -/
theorem quantizeStep_retained (bk : ℤ) (p : ℕ × ℕ × ℕ) (h : retainedPixel bk p = true)
    (m : List ((ℤ × ℤ × ℤ) × ℕ)) : quantizeStep bk m p = bump (quantKey bk p) m := by
  unfold retainedPixel at h
  simp only [Bool.not_eq_eq_eq_not, Bool.not_true, decide_eq_false_iff_not] at h
  unfold quantizeStep
  rw [if_neg h]

/-- Folding a retained pixel `n` more times over a single-bucket histogram. -/
theorem foldl_quantizeStep_replicate (bk : ℤ) (p : ℕ × ℕ × ℕ)
    (h : retainedPixel bk p = true) :
    ∀ n j, (List.replicate n p).foldl (quantizeStep bk) [(quantKey bk p, j)] =
      [(quantKey bk p, j + n)] := by
  intro n
  induction n with
  | zero => simp
  | succ n ih =>
    intro j
    rw [List.replicate_succ, List.foldl_cons, quantizeStep_retained bk p h]
    have hb : bump (quantKey bk p) [(quantKey bk p, j)] = [(quantKey bk p, j + 1)] := by
      simp [bump]
    rw [hb, ih (j + 1)]
    have hn : j + 1 + n = j + (n + 1) := by omega
    rw [hn]

/-- The histogram of a nonempty solid buffer whose pixel is retained. -/
theorem quantizeColors_solid (bk : ℤ) (r g b n : ℕ)
    (h : retainedPixel bk (r, g, b) = true) :
    quantizeColors bk (solidBuffer (n + 1) r g b) 3 = [(quantKey bk (r, g, b), n + 1)] := by
  unfold quantizeColors
  rw [pixelsOf_solid, List.replicate_succ, List.foldl_cons, quantizeStep_retained bk _ h]
  have hb : bump (quantKey bk (r, g, b)) [] = [(quantKey bk (r, g, b), 1)] := by
    simp [bump]
  rw [hb, foldl_quantizeStep_replicate bk _ h n 1]
  have hn : 1 + n = n + 1 := by omega
  rw [hn]

/-- Generalised accumulator form of `totalPixels`. -/
theorem foldl_totalPixels (l : List ((ℤ × ℤ × ℤ) × ℕ)) :
    ∀ a, l.foldl (fun a e => a + e.2) a = a + (l.map (fun e => e.2)).sum := by
  induction l with
  | nil => simp
  | cons e rest ih =>
    intro a
    rw [List.foldl_cons, ih, List.map_cons, List.sum_cons]
    omega

/-- `bump` increases the retained-pixel total by exactly one. -/
theorem totalPixels_bump (k : ℤ × ℤ × ℤ) (m : List ((ℤ × ℤ × ℤ) × ℕ)) :
    totalPixels (bump k m) = totalPixels m + 1 := by
  unfold totalPixels
  rw [foldl_totalPixels, foldl_totalPixels]
  induction m with
  | nil => simp [bump]
  | cons e rest ih =>
    obtain ⟨k', n⟩ := e
    by_cases hk : k' = k
    · simp [bump, hk]
      omega
    · simp only [bump, if_neg hk, List.map_cons, List.sum_cons]
      omega

/-- Fold invariant: every processed pixel adds one to the total exactly when
it is retained. -/
theorem totalPixels_foldl_quantizeStep (bk : ℤ) :
    ∀ (pixels : List (ℕ × ℕ × ℕ)) (m : List ((ℤ × ℤ × ℤ) × ℕ)),
      totalPixels (pixels.foldl (quantizeStep bk) m) =
        totalPixels m + pixels.countP (retainedPixel bk) := by
  intro pixels
  induction pixels with
  | nil => simp
  | cons p rest ih =>
    intro m
    rw [List.foldl_cons, ih, List.countP_cons]
    by_cases hp : retainedPixel bk p = true
    · rw [quantizeStep_retained bk p hp, totalPixels_bump]
      simp [hp]
      omega
    · have hskip : quantizeStep bk m p = m := by
        unfold retainedPixel at hp
        simp only [Bool.not_eq_eq_eq_not, Bool.not_true, decide_eq_false_iff_not,
          not_not] at hp
        unfold quantizeStep
        rw [if_pos hp]
      rw [hskip]
      simp [hp]

/-! Diversity-filter lemmas. -/

/-- The greedy loop only ever appends: its result is the accumulator followed
by a subsequence of the candidates scanned. -/
theorem foldl_greedyStep_append (count : ℕ) :
    ∀ (rest d : List ExtractedColor),
      ∃ t, rest.foldl (greedyStep count) d = d ++ t ∧ t.Sublist rest := by
  intro rest
  induction rest with
  | nil =>
    intro d
    exact ⟨[], by simp, by simp⟩
  | cons c rest ih =>
    intro d
    rw [List.foldl_cons]
    by_cases hc : d.length < count ∧ d.all (fun e => diverseFrom c e)
    · obtain ⟨t, ht, hs⟩ := ih (d ++ [c])
      have hg : greedyStep count d c = d ++ [c] := by
        unfold greedyStep
        rw [if_pos hc]
      refine ⟨c :: t, ?_, hs.cons₂ c⟩
      rw [hg, ht, List.append_assoc, List.singleton_append]
    · obtain ⟨t, ht, hs⟩ := ih d
      have hg : greedyStep count d c = d := by
        unfold greedyStep
        rw [if_neg hc]
      exact ⟨t, by rw [hg, ht], hs.cons c⟩

/-- The greedy phase returns a subsequence of the candidate pool. -/
theorem greedyPhase_sublist (count : ℕ) (colors : List ExtractedColor) :
    (greedyPhase count colors).Sublist colors := by
  cases colors with
  | nil => simp [greedyPhase]
  | cons c0 rest =>
    obtain ⟨t, ht, hs⟩ := foldl_greedyStep_append count rest [c0]
    have hg : greedyPhase count (c0 :: rest) = rest.foldl (greedyStep count) [c0] := rfl
    rw [hg, ht, List.singleton_append]
    exact hs.cons₂ c0

/-- The greedy loop preserves pairwise diversity of the accumulator: a
candidate is appended only after passing the test against every kept color. -/
theorem foldl_greedyStep_pairwise (count : ℕ) :
    ∀ (rest d : List ExtractedColor),
      List.Pairwise (fun a b => diverseFrom b a = true) d →
      List.Pairwise (fun a b => diverseFrom b a = true) (rest.foldl (greedyStep count) d) := by
  intro rest
  induction rest with
  | nil =>
    intro d hd
    simpa using hd
  | cons c rest ih =>
    intro d hd
    rw [List.foldl_cons]
    apply ih
    by_cases hc : d.length < count ∧ d.all (fun e => diverseFrom c e)
    · have hg : greedyStep count d c = d ++ [c] := by
        unfold greedyStep
        rw [if_pos hc]
      rw [hg, List.pairwise_append]
      refine ⟨hd, List.pairwise_singleton _ _, ?_⟩
      intro a ha b hb
      rw [List.mem_singleton] at hb
      subst hb
      exact List.all_eq_true.mp hc.2 a ha
    · have hg : greedyStep count d c = d := by
        unfold greedyStep
        rw [if_neg hc]
      rw [hg]
      exact hd

/-- Any two colors kept by the greedy phase pass the diversity test. -/
theorem greedyPhase_pairwise (count : ℕ) (colors : List ExtractedColor) :
    List.Pairwise (fun a b => diverseFrom b a = true) (greedyPhase count colors) := by
  cases colors with
  | nil => simp [greedyPhase]
  | cons c0 rest =>
    exact foldl_greedyStep_pairwise count rest [c0] (List.pairwise_singleton _ _)

/-- The fill loop only adds colors drawn from the scanned list. -/
theorem foldl_fillStep_mem (count : ℕ) :
    ∀ (colors d : List ExtractedColor) (x : ExtractedColor),
      x ∈ colors.foldl (fillStep count) d → x ∈ d ∨ x ∈ colors := by
  intro colors
  induction colors with
  | nil =>
    intro d x h
    exact Or.inl (by simpa using h)
  | cons c colors ih =>
    intro d x h
    rw [List.foldl_cons] at h
    rcases ih (fillStep count d c) x h with h1 | h2
    · unfold fillStep at h1
      by_cases h3 : count ≤ d.length
      · rw [if_pos h3] at h1
        exact Or.inl h1
      · rw [if_neg h3] at h1
        by_cases h4 : c ∈ d
        · rw [if_pos h4] at h1
          exact Or.inl h1
        · rw [if_neg h4] at h1
          rcases List.mem_append.mp h1 with h5 | h5
          · exact Or.inl h5
          · rw [List.mem_singleton] at h5
            subst h5
            exact Or.inr (List.mem_cons_self _ _)
    · exact Or.inr (List.mem_cons_of_mem c h2)

/-- Every color returned by the diversity filter comes from its input pool. -/
theorem ensureDiversity_subset (colors : List ExtractedColor) (count : ℕ)
    (x : ExtractedColor) (h : x ∈ ensureDiversity colors count) : x ∈ colors := by
  unfold ensureDiversity at h
  by_cases hl : colors.length ≤ 1
  · rw [if_pos hl] at h
    exact h
  · rw [if_neg hl] at h
    unfold fillPhase at h
    rcases foldl_fillStep_mem count colors _ x h with h1 | h2
    · exact (greedyPhase_sublist count colors).subset h1
    · exact h2

/-! Evaluation lemmas on the concrete inputs. -/

theorem rgbToHex_240_0_0 : rgbToHex 240 0 0 = "#F00000" := by decide

theorem rgbToHex_224_0_0 : rgbToHex 224 0 0 = "#E00000" := by decide

theorem rgbToHex_0_0_240 : rgbToHex 0 0 240 = "#0000F0" := by decide

theorem rgbToHsl_240_0_0 : rgbToHsl 240 0 0 = ⟨0, 100, 47⟩ := by
  norm_num [rgbToHsl, jsRound, max_def, min_def]

theorem rgbToHsl_224_0_0 : rgbToHsl 224 0 0 = ⟨0, 100, 44⟩ := by
  norm_num [rgbToHsl, jsRound, max_def, min_def]

theorem rgbToHsl_0_0_240 : rgbToHsl 0 0 240 = ⟨240, 100, 47⟩ := by
  norm_num [rgbToHsl, jsRound, max_def, min_def]

theorem rgbToHsl_255_255_255 : rgbToHsl 255 255 255 = ⟨0, 0, 100⟩ := by
  norm_num [rgbToHsl, jsRound, max_def, min_def]

theorem getColorName_red47 : getColorName ⟨0, 100, 47⟩ = "red" := by decide

theorem getColorName_red44 : getColorName ⟨0, 100, 44⟩ = "red" := by decide

theorem getColorName_blue47 : getColorName ⟨240, 100, 47⟩ = "blue" := by decide

theorem toEC_red : toExtractedColor 10 ((240, 0, 0), 5) = ecRed := by
  norm_num [toExtractedColor, ecRed, rgbToHex_240_0_0, rgbToHsl_240_0_0, getColorName_red47]

theorem toEC_darkRed : toExtractedColor 10 ((224, 0, 0), 3) = ecDarkRed := by
  norm_num [toExtractedColor, ecDarkRed, rgbToHex_224_0_0, rgbToHsl_224_0_0, getColorName_red44]

theorem toEC_blue2 : toExtractedColor 10 ((0, 0, 240), 2) = ecBlue2 := by
  norm_num [toExtractedColor, ecBlue2, rgbToHex_0_0_240, rgbToHsl_0_0_240, getColorName_blue47]

theorem toEC_red34 : toExtractedColor 4 ((240, 0, 0), 3) = ecRed34 := by
  norm_num [toExtractedColor, ecRed34, rgbToHex_240_0_0, rgbToHsl_240_0_0, getColorName_red47]

theorem toEC_blue14 : toExtractedColor 4 ((0, 0, 240), 1) = ecBlue14 := by
  norm_num [toExtractedColor, ecBlue14, rgbToHex_0_0_240, rgbToHsl_0_0_240, getColorName_blue47]

theorem toEC_blueSolid : toExtractedColor 10000 ((0, 0, 240), 10000) = ecBlueSolid := by
  norm_num [toExtractedColor, ecBlueSolid, rgbToHex_0_0_240, rgbToHsl_0_0_240,
    getColorName_blue47]

theorem ranked_hist3 : rankedColors hist3 = [ecRed, ecDarkRed, ecBlue2] := by
  have htot : totalPixels hist3 = 10 := by simp [totalPixels, hist3]
  unfold rankedColors
  rw [htot]
  have hmap : hist3.map (toExtractedColor 10) = [ecRed, ecDarkRed, ecBlue2] := by
    rw [hist3, List.map_cons, List.map_cons, List.map_cons, List.map_nil,
      toEC_red, toEC_darkRed, toEC_blue2]
  rw [hmap]
  norm_num [List.insertionSort, List.orderedInsert, freqDesc, ecRed, ecDarkRed, ecBlue2]

theorem ranked_hist2 : rankedColors hist2 = [ecRed34, ecBlue14] := by
  have htot : totalPixels hist2 = 4 := by simp [totalPixels, hist2]
  unfold rankedColors
  rw [htot]
  have hmap : hist2.map (toExtractedColor 4) = [ecRed34, ecBlue14] := by
    rw [hist2, List.map_cons, List.map_cons, List.map_nil, toEC_red34, toEC_blue14]
  rw [hmap]
  norm_num [List.insertionSort, List.orderedInsert, freqDesc, ecRed34, ecBlue14]

theorem gdc_hist3_10 : getDominantColors hist3 10 = [ecRed, ecBlue2, ecDarkRed] := by
  unfold getDominantColors
  rw [ranked_hist3]
  have htake : ([ecRed, ecDarkRed, ecBlue2]).take 10 = [ecRed, ecDarkRed, ecBlue2] := rfl
  rw [htake]
  norm_num [ensureDiversity, greedyPhase, fillPhase, greedyStep, fillStep, diverseFrom,
    ecRed, ecDarkRed, ecBlue2]

theorem gdc_hist3_2 : getDominantColors hist3 2 = [ecRed, ecDarkRed] := by
  unfold getDominantColors
  rw [ranked_hist3]
  have htake : ([ecRed, ecDarkRed, ecBlue2]).take 2 = [ecRed, ecDarkRed] := rfl
  rw [htake]
  norm_num [ensureDiversity, greedyPhase, fillPhase, greedyStep, fillStep, diverseFrom,
    ecRed, ecDarkRed]

theorem gdcSpec_hist3_2 : getDominantColorsSpecPool hist3 2 = [ecRed, ecBlue2] := by
  unfold getDominantColorsSpecPool
  rw [ranked_hist3]
  have htake : ([ecRed, ecDarkRed, ecBlue2]).take (2 * 2) = [ecRed, ecDarkRed, ecBlue2] := rfl
  rw [htake]
  norm_num [ensureDiversity, greedyPhase, fillPhase, greedyStep, fillStep, diverseFrom,
    ecRed, ecDarkRed, ecBlue2]

theorem gdc_hist2_10 : getDominantColors hist2 10 = [ecRed34, ecBlue14] := by
  unfold getDominantColors
  rw [ranked_hist2]
  have htake : ([ecRed34, ecBlue14]).take 10 = [ecRed34, ecBlue14] := rfl
  rw [htake]
  norm_num [ensureDiversity, greedyPhase, fillPhase, greedyStep, fillStep, diverseFrom,
    ecRed34, ecBlue14]

theorem greedy_hist2_10 :
    greedyPhase 10 ((rankedColors hist2).take 10) = [ecRed34, ecBlue14] := by
  rw [ranked_hist2]
  have htake : ([ecRed34, ecBlue14]).take 10 = [ecRed34, ecBlue14] := rfl
  rw [htake]
  norm_num [greedyPhase, greedyStep, diverseFrom, ecRed34, ecBlue14]

theorem ensureDiversity_colors6 :
    ensureDiversity colors6 2 = greedyPhase 2 colors6 := by
  have h1 : ensureDiversity colors6 2 = [ecRed, ecBlue2] := by
    norm_num [ensureDiversity, colors6, greedyPhase, fillPhase, greedyStep, fillStep,
      diverseFrom, ecRed, ecBlue2]
  have h2 : greedyPhase 2 colors6 = [ecRed, ecBlue2] := by
    norm_num [colors6, greedyPhase, greedyStep, diverseFrom, ecRed, ecBlue2]
  rw [h1, h2]

theorem retained_blue : retainedPixel 16 (0, 0, 255) = true := by
  norm_num [retainedPixel, pixelBrightness, quantKey, quantizeChannel]

theorem retained_white : retainedPixel 16 (255, 255, 255) = true := by
  norm_num [retainedPixel, pixelBrightness, quantKey, quantizeChannel]

theorem retained_gray16 : retainedPixel 16 (16, 16, 16) = true := by
  norm_num [retainedPixel, pixelBrightness, quantKey, quantizeChannel]

theorem quantKey_blue : quantKey 16 (0, 0, 255) = (0, 0, 240) := by
  norm_num [quantKey, quantizeChannel]

theorem quantKey_white : quantKey 16 (255, 255, 255) = (240, 240, 240) := by
  norm_num [quantKey, quantizeChannel]

theorem quantKey_gray16 : quantKey 16 (16, 16, 16) = (16, 16, 16) := by
  norm_num [quantKey, quantizeChannel]

theorem hist_blueBuffer : quantizeColors 16 blueBuffer 3 = [((0, 0, 240), 10000)] := by
  have h := quantizeColors_solid 16 0 0 255 9999 retained_blue
  rw [quantKey_blue] at h
  have hb : blueBuffer = solidBuffer (9999 + 1) 0 0 255 := rfl
  rw [hb, h]

theorem hist_whiteBuffer :
    quantizeColors 16 (solidBuffer 10000 255 255 255) 3 = [((240, 240, 240), 10000)] := by
  have h := quantizeColors_solid 16 255 255 255 9999 retained_white
  rw [quantKey_white] at h
  exact h

theorem hist_gray16Buffer :
    quantizeColors 16 (solidBuffer 10000 16 16 16) 3 = [((16, 16, 16), 10000)] := by
  have h := quantizeColors_solid 16 16 16 16 9999 retained_gray16
  rw [quantKey_gray16] at h
  exact h

theorem gdc_blue_solid : getDominantColors [((0, 0, 240), 10000)] 10 = [ecBlueSolid] := by
  unfold getDominantColors rankedColors
  have htot : totalPixels [((0, 0, 240), 10000)] = 10000 := by simp [totalPixels]
  rw [htot]
  have hmap : ([((0, 0, 240), 10000)] : List ((ℤ × ℤ × ℤ) × ℕ)).map (toExtractedColor 10000) =
      [ecBlueSolid] := by
    rw [List.map_cons, List.map_nil, toEC_blueSolid]
  rw [hmap]
  have hsort : List.insertionSort freqDesc [ecBlueSolid] = [ecBlueSolid] := by
    simp [List.insertionSort, List.orderedInsert]
  rw [hsort]
  simp [ensureDiversity]

theorem extract_blue_dominant :
    (extractFromBufferPure 16 blueBuffer 3).dominantColors = [ecBlueSolid] := by
  simp only [extractFromBufferPure, hist_blueBuffer, gdc_blue_solid]

theorem extract_blue_harmony :
    (extractFromBufferPure 16 blueBuffer 3).colorHarmony = ColorHarmony.monochromatic := by
  simp only [extractFromBufferPure, hist_blueBuffer, gdc_blue_solid]
  simp [detectColorHarmony]

theorem palette_blueSolid_primary : (generatePalette [ecBlueSolid]).primary = "#0000F0" := by
  have hsort : List.insertionSort satDesc [ecBlueSolid] = [ecBlueSolid] := by
    simp [List.insertionSort, List.orderedInsert]
  unfold generatePalette
  rw [if_neg (by simp), hsort]
  simp [ecBlueSolid]

theorem extract_blue_primary :
    (extractFromBufferPure 16 blueBuffer 3).palette.primary = "#0000F0" := by
  simp only [extractFromBufferPure, hist_blueBuffer, gdc_blue_solid]
  exact palette_blueSolid_primary

theorem sorted_cs5 : List.insertionSort satDesc cs5 = [ecBlue2, ecGray240] := by
  norm_num [cs5, List.insertionSort, List.orderedInsert, satDesc, ecBlue2, ecGray240]

theorem avgLightness_cs5 : avgLightness cs5 = 141 / 2 := by
  norm_num [avgLightness, cs5, ecBlue2, ecGray240]

theorem palette_cs5_light :
    (generatePalette cs5).background = "#FFFFFF" ∧ (generatePalette cs5).text = "#0F172A" := by
  unfold generatePalette
  rw [if_neg (by simp [cs5]), sorted_cs5]
  have hdark : ¬ avgLightness cs5 < 50 := by
    rw [avgLightness_cs5]
    norm_num
  simp [hdark]

/-! Claim theorems. -/

/-- C1 (counterexample): on an empty batch the aggregation phase of
`extractFromMultiple` does not return the fixed default result: classification
is applied to the empty merged set and yields `monochromatic`, not the
default's `custom`. -/
theorem claim1_counterexample :
    extractFromMultipleAgg [] ≠ getDefaultResult ∧
    (extractFromMultipleAgg []).colorHarmony = ColorHarmony.monochromatic ∧
    getDefaultResult.colorHarmony = ColorHarmony.custom := by
  refine ⟨?_, rfl, rfl⟩
  intro h
  have hh := congrArg ColorExtractionResult.colorHarmony h
  exact (show ColorHarmony.monochromatic ≠ ColorHarmony.custom by decide) hh

/-- C1 (amended): for an extraction over zero sources, or over sources that
all fail or all yield an empty signal, the aggregation phase of
`extractFromMultiple` does not short-circuit: it applies classification and
synthesis to the empty merged set, returning empty `dominantColors`, the
default palette, `colorHarmony = monochromatic` (the under-2-colors branch of
`detectColorHarmony`), and `brightness = saturation = mixed`. -/
theorem claim1_empty_batch :
    extractFromMultipleAgg [] =
      { dominantColors := []
        palette := getDefaultPalette
        colorHarmony := ColorHarmony.monochromatic
        brightness := Brightness.mixed
        saturation := Saturation.mixed } := rfl

/-- C2 (counterexample): the quantizer's discard test reads the quantized
channel values, not the raw ones.  A pure-white pixel (raw mean 255, above
245) quantizes to `(240,240,240)` (mean 240) and is retained, and a `#101010`
pixel quantizes to `(16,16,16)` (mean 16) and is retained, so neither an
all-white nor an all-`#101010` image yields an empty histogram. -/
theorem claim2_counterexample :
    quantizeColors 16 [255, 255, 255] 3 = [((240, 240, 240), 1)] ∧
    ((255 : ℚ) + 255 + 255) / 3 > 245 ∧
    quantizeColors 16 [16, 16, 16] 3 = [((16, 16, 16), 1)] := by
  refine ⟨?_, by norm_num, ?_⟩
  · have hp : pixelsOf 3 [255, 255, 255] = [(255, 255, 255)] := by simp [pixelsOf]
    unfold quantizeColors
    rw [hp, List.foldl_cons, List.foldl_nil, quantizeStep_retained 16 _ retained_white,
      quantKey_white]
    simp [bump]
  · have hp : pixelsOf 3 [16, 16, 16] = [(16, 16, 16)] := by simp [pixelsOf]
    unfold quantizeColors
    rw [hp, List.foldl_cons, List.foldl_nil, quantizeStep_retained 16 _ retained_gray16,
      quantKey_gray16]
    simp [bump]

/-- C2 (amended): a pixel contributes to the histogram total exactly when the
mean of its quantized channel values lies within `[10, 245]`; with bucket size
16 an all-`#FFFFFF` image quantizes to `(240,240,240)` and an all-`#101010`
image to `(16,16,16)`, both retained in full, so neither signal is empty. -/
theorem claim2_quantizer_discard :
    (∀ (bucketSize : ℤ) (channels : ℕ) (data : List ℕ),
        totalPixels (quantizeColors bucketSize data channels) =
          (pixelsOf channels data).countP (retainedPixel bucketSize)) ∧
    quantizeColors 16 (solidBuffer 10000 255 255 255) 3 = [((240, 240, 240), 10000)] ∧
    quantizeColors 16 (solidBuffer 10000 16 16 16) 3 = [((16, 16, 16), 10000)] ∧
    retainedPixel 16 (255, 255, 255) = true ∧
    retainedPixel 16 (16, 16, 16) = true := by
  refine ⟨?_, hist_whiteBuffer, hist_gray16Buffer, retained_white, retained_gray16⟩
  intro bk ch data
  unfold quantizeColors
  have h := totalPixels_foldl_quantizeStep bk (pixelsOf ch data) []
  simpa [totalPixels] using h

/-- C3 (counterexample): on the 100×100 all-`#0000FF` buffer the extracted
dominant color is `#0000F0` (channel 255 floors to bucket 240), not
`#0000FF` as the claim states, and so is `palette.primary`. -/
theorem claim3_counterexample :
    (extractFromBufferPure 16 blueBuffer 3).dominantColors.map (fun c => c.hex) =
      ["#0000F0"] ∧
    (extractFromBufferPure 16 blueBuffer 3).palette.primary = "#0000F0" ∧
    ("#0000F0" : String) ≠ "#0000FF" := by
  refine ⟨?_, extract_blue_primary, by decide⟩
  rw [extract_blue_dominant]
  simp [ecBlueSolid]

/-- C3 (amended): for the 100×100 all-`#0000FF` buffer with bucket size 16,
extraction returns a single dominant color with hex `#0000F0` and frequency
1.0, `colorHarmony = monochromatic`, and `palette.primary = "#0000F0"`. -/
theorem claim3_solid_blue :
    (extractFromBufferPure 16 blueBuffer 3).dominantColors = [ecBlueSolid] ∧
    ecBlueSolid.hex = "#0000F0" ∧
    ecBlueSolid.frequency = 1 ∧
    (extractFromBufferPure 16 blueBuffer 3).colorHarmony = ColorHarmony.monochromatic ∧
    (extractFromBufferPure 16 blueBuffer 3).palette.primary = "#0000F0" :=
  ⟨extract_blue_dominant, rfl, rfl, extract_blue_harmony, extract_blue_primary⟩

/-- C4 (counterexample): the selector's output is not always sorted by
non-increasing frequency: on `hist3` with target count 10 the diversity filter
rejects the second-ranked dark red and the fill loop re-appends it after the
lower-frequency blue, giving frequencies (1/2, 1/5, 3/10). -/
theorem claim4_counterexample :
    getDominantColors hist3 10 = [ecRed, ecBlue2, ecDarkRed] ∧
    ¬ List.Sorted freqDesc (getDominantColors hist3 10) := by
  refine ⟨gdc_hist3_10, ?_⟩
  rw [gdc_hist3_10]
  intro h
  have h2 := (List.sorted_cons.mp h).2
  have h3 := (List.sorted_cons.mp h2).1 ecDarkRed (by simp)
  norm_num [freqDesc, ecBlue2, ecDarkRed] at h3

/-- C4 (amended): the selector's output is sorted by non-increasing frequency
whenever the greedy diversity phase alone produced it (the frequency fill was
unused); the fill loop can break global sortedness by appending
previously-rejected higher-frequency colors at the end. -/
theorem claim4_sorted_when_no_fill (colorMap : List ((ℤ × ℤ × ℤ) × ℕ)) (count : ℕ)
    (h : getDominantColors colorMap count =
      greedyPhase count ((rankedColors colorMap).take count)) :
    List.Sorted freqDesc (getDominantColors colorMap count) := by
  rw [h]
  have hsorted : List.Sorted freqDesc (rankedColors colorMap) := by
    unfold rankedColors
    exact List.sorted_insertionSort freqDesc _
  have hpool : List.Sorted freqDesc ((rankedColors colorMap).take count) :=
    List.Pairwise.sublist (List.take_sublist count _) hsorted
  exact List.Pairwise.sublist (greedyPhase_sublist count _) hpool

/-- C4 (witness): on `hist2` the greedy phase alone fills the result, and the
returned sequence is sorted by non-increasing frequency. -/
theorem claim4_sorted_when_no_fill_witness :
    getDominantColors hist2 10 = greedyPhase 10 ((rankedColors hist2).take 10) ∧
    List.Sorted freqDesc (getDominantColors hist2 10) := by
  have hpf : getDominantColors hist2 10 = greedyPhase 10 ((rankedColors hist2).take 10) := by
    rw [gdc_hist2_10, greedy_hist2_10]
  exact ⟨hpf, claim4_sorted_when_no_fill hist2 10 hpf⟩

/-- C5 (counterexample): for a light-themed dominant set (average lightness
70.5 ≥ 50) the synthesized background is the fixed constant `#FFFFFF`, whose
HSL lightness is 100 rather than the hue-derived lightness 98 the claim
requires, and the text slot is the fixed dark constant `#0F172A` irrespective
of the primary color's luminance. -/
theorem claim5_counterexample :
    cs5 ≠ [] ∧ 50 ≤ avgLightness cs5 ∧
    (generatePalette cs5).background = "#FFFFFF" ∧
    (generatePalette cs5).text = "#0F172A" ∧
    rgbToHsl 255 255 255 = ⟨0, 0, 100⟩ ∧ (100 : ℤ) ≠ 98 := by
  refine ⟨by simp [cs5], ?_, palette_cs5_light.1, palette_cs5_light.2,
    rgbToHsl_255_255_255, by decide⟩
  rw [avgLightness_cs5]
  norm_num

/-- C5 (amended): for every non-empty dominant set with average lightness at
least 50 the synthesizer uses fixed constants — background `#FFFFFF`, surface
`#F8FAFC`, text `#0F172A`, textSecondary `#64748B` — independent of the
primary color's hue and without any luminance computation. -/
theorem claim5_light_theme_constants (colors : List ExtractedColor) (h1 : colors ≠ [])
    (h2 : 50 ≤ avgLightness colors) :
    (generatePalette colors).background = "#FFFFFF" ∧
    (generatePalette colors).surface = "#F8FAFC" ∧
    (generatePalette colors).text = "#0F172A" ∧
    (generatePalette colors).textSecondary = "#64748B" := by
  have hlen : ¬ colors.length = 0 := by simpa using h1
  have hdark : ¬ avgLightness colors < 50 := not_lt.mpr h2
  unfold generatePalette
  rw [if_neg hlen]
  cases hs : List.insertionSort satDesc colors with
  | nil =>
    exfalso
    have hperm := List.perm_insertionSort satDesc colors
    rw [hs] at hperm
    exact hlen hperm.length_eq.symm
  | cons p rest =>
    simp [hdark]

/-- C5 (witness): the light-themed set `cs5` satisfies the hypotheses and
receives the four fixed light-theme constants. -/
theorem claim5_light_theme_constants_witness :
    (cs5 ≠ [] ∧ 50 ≤ avgLightness cs5) ∧
    ((generatePalette cs5).background = "#FFFFFF" ∧
      (generatePalette cs5).surface = "#F8FAFC" ∧
      (generatePalette cs5).text = "#0F172A" ∧
      (generatePalette cs5).textSecondary = "#64748B") := by
  have h1 : cs5 ≠ [] := by simp [cs5]
  have h2 : 50 ≤ avgLightness cs5 := by
    rw [avgLightness_cs5]
    norm_num
  exact ⟨⟨h1, h2⟩, claim5_light_theme_constants cs5 h1 h2⟩

/-- C6: when the diversity filter's result is exactly the greedy phase's
output (at least `count` diverse candidates existed, so the frequency-only
fill was unused), any two colors of the result satisfy circular hue distance
above 30 or lightness distance above 20. -/
theorem claim6_diversity_invariant (colors : List ExtractedColor) (count : ℕ)
    (h : ensureDiversity colors count = greedyPhase count colors) :
    List.Pairwise (fun a b => diverseFrom b a = true) (ensureDiversity colors count) := by
  rw [h]
  exact greedyPhase_pairwise count colors

/-- C6 (witness): on the pool `colors6` with count 2 the greedy phase alone
fills the result and the pairwise diversity invariant holds. -/
theorem claim6_diversity_invariant_witness :
    ensureDiversity colors6 2 = greedyPhase 2 colors6 ∧
    List.Pairwise (fun a b => diverseFrom b a = true) (ensureDiversity colors6 2) :=
  ⟨ensureDiversity_colors6, claim6_diversity_invariant colors6 2 ensureDiversity_colors6⟩

/-- C7 (counterexample): the selector feeds only the top `count` candidates to
the diversity filter (`.slice(0, count)`), not the top `count * 2`: on `hist3`
(3 entries) with K = 2 the third-ranked blue — which the claimed 2K pool would
admit — cannot appear in the result. -/
theorem claim7_counterexample :
    2 < hist3.length ∧
    getDominantColors hist3 2 = [ecRed, ecDarkRed] ∧
    getDominantColorsSpecPool hist3 2 = [ecRed, ecBlue2] ∧
    ecBlue2 ∉ getDominantColors hist3 2 ∧
    ecBlue2 ∈ getDominantColorsSpecPool hist3 2 := by
  refine ⟨by simp [hist3], gdc_hist3_2, gdcSpec_hist3_2, ?_, ?_⟩
  · rw [gdc_hist3_2]
    norm_num [ecRed, ecDarkRed, ecBlue2]
  · rw [gdcSpec_hist3_2]
    simp

/-- C7 (amended): the working pool handed to the diversity filter is the top
`count` candidates by frequency, so every color the selector returns is drawn
from the top `count` of the frequency-sorted conversion. -/
theorem claim7_top_count_pool (colorMap : List ((ℤ × ℤ × ℤ) × ℕ)) (count : ℕ)
    (c : ExtractedColor) (h : c ∈ getDominantColors colorMap count) :
    c ∈ (rankedColors colorMap).take count := by
  unfold getDominantColors at h
  exact ensureDiversity_subset _ _ _ h

/-- C7 (witness): the dominant red of `hist3` is returned by the selector with
K = 2 and indeed lies in the top-2 pool. -/
theorem claim7_top_count_pool_witness :
    ecRed ∈ getDominantColors hist3 2 ∧ ecRed ∈ (rankedColors hist3).take 2 := by
  have hm : ecRed ∈ getDominantColors hist3 2 := by
    rw [gdc_hist3_2]
    simp
  exact ⟨hm, claim7_top_count_pool hist3 2 ecRed hm⟩

/-- C8 (counterexample): the constructor performs no validation: a negative
bucket size is accepted and stored, the spec-modelled fail-fast constructor
rejects it, and the resulting engine still quantizes pixels (bucket −16 maps
channel 100 to 112), so construction does not abort. -/
theorem claim8_counterexample :
    ColorExtractor.make (-16) = { colorBucketSize := -16 } ∧
    ColorExtractor.makeSpec (-16) = none ∧
    quantizeColors (ColorExtractor.make (-16)).colorBucketSize [100, 100, 100] 3 =
      [((112, 112, 112), 1)] := by
  refine ⟨rfl, by norm_num [ColorExtractor.makeSpec], ?_⟩
  show quantizeColors (-16) [100, 100, 100] 3 = _
  have hp : pixelsOf 3 [100, 100, 100] = [(100, 100, 100)] := by simp [pixelsOf]
  unfold quantizeColors
  rw [hp, List.foldl_cons, List.foldl_nil]
  norm_num [quantizeStep, pixelBrightness, quantKey, quantizeChannel, bump]

/-- C8 (amended): construction never fails: any bucket size, including a
non-positive one, is stored unvalidated, in contrast with the spec-modelled
checked constructor which would reject it. -/
theorem claim8_unchecked_constructor (b : ℤ) (h : b ≤ 0) :
    ColorExtractor.make b = { colorBucketSize := b } ∧ ColorExtractor.makeSpec b = none :=
  ⟨rfl, by simp [ColorExtractor.makeSpec, h]⟩

/-- C8 (witness): bucket size 0 is non-positive, is accepted by the source
constructor, and is rejected by the spec-modelled one. -/
theorem claim8_unchecked_constructor_witness :
    (0 : ℤ) ≤ 0 ∧
    (ColorExtractor.make 0 = { colorBucketSize := 0 } ∧ ColorExtractor.makeSpec 0 = none) :=
  ⟨le_refl 0, claim8_unchecked_constructor 0 (le_refl 0)⟩

/-- C9: the extraction pipeline (quantize → select → classify → synthesize)
and the aggregation pipeline are pure functions of the pixel data, channel
count and bucket size, so two runs on identical input produce identical
`ColorExtractionResult` values. -/
theorem claim9_determinism :
    (∀ (bucketSize : ℤ) (data : List ℕ) (channels : ℕ),
        extractFromBufferPure bucketSize data channels =
          extractFromBufferPure bucketSize data channels) ∧
    (∀ allColors : List ExtractedColor,
        extractFromMultipleAgg allColors = extractFromMultipleAgg allColors) :=
  ⟨fun _ _ _ => rfl, fun _ => rfl⟩

/-- C10: for a dominant set with exactly one color, the synthesized palette
assigns that color's hex to primary, secondary and accent alike: both fallback
chains terminate at the primary. -/
theorem claim10_single_color_palette (c : ExtractedColor) :
    (generatePalette [c]).primary = c.hex ∧
    (generatePalette [c]).secondary = c.hex ∧
    (generatePalette [c]).accent = c.hex := by
  have hsort : List.insertionSort satDesc [c] = [c] := by
    simp [List.insertionSort, List.orderedInsert]
  have hgd1 : ([c] : List ExtractedColor).getD 1 c = c := rfl
  have hgd2 : ([c] : List ExtractedColor).getD 2 c = c := rfl
  have hsec : findSecondary [c] c = c := by
    simp [findSecondary, findSecondaryLoop, hgd1]
  have hacc : findAccent [c] c c = c := by
    simp [findAccent, findAccentLoop, hgd2]
  unfold generatePalette
  rw [if_neg (by simp), hsort]
  simp [hsec, hacc]

end DesignScout
